import Mathlib

/-!
Shallow embedding of the PiKVM Node.js client library (src/lib/index.js and
its TypeScript variant). The library is a thin binding over the PiKVM HTTP
API: a constructor that validates and defaults configuration, one generic
request operation, and a fixed set of typed endpoint wrappers that each
perform exactly one request. Each wrapper below denotes the single request
descriptor (method, path with query string, optional JSON body) that the
corresponding method passes to the generic request operation.
-/

namespace PiKVM

/-- JavaScript-like primitive values, used for the fields of the raw
configuration record passed to the constructor. -/
inductive JSValue where
  | undefined
  | null
  | bool (b : Bool)
  | num (n : Int)
  | str (s : String)
  deriving DecidableEq, Repr

/-- JavaScript truthiness of the primitive values above: undefined and null
are falsy, a boolean is itself, a number is truthy when nonzero, a string
when nonempty. -/
def truthy : JSValue → Bool
  | .undefined => false
  | .null => false
  | .bool b => b
  | .num n => n != 0
  | .str s => s != ""

/-- JavaScript logical-or defaulting, `a || b`. -/
def jsOr (a b : JSValue) : JSValue := if truthy a then a else b

/-- Coercion of a primitive value into a template-literal string, as in
`Buffer.from(str)` with a template argument. -/
def jsToString : JSValue → String
  | .undefined => "undefined"
  | .null => "null"
  | .bool b => if b then "true" else "false"
  | .num n => toString n
  | .str s => s

/-- JSON values, used for request bodies and parsed response bodies.
Numbers are modelled as integers; every numeric value appearing in the
library and its claims is integral. -/
inductive Json where
  | null
  | bool (b : Bool)
  | num (n : Int)
  | str (s : String)
  | arr (elems : List Json)
  | obj (fields : List (String × Json))

/-- The UTF-8 encoding of one character, as a list of byte values. -/
def utf8Bytes (c : Char) : List Nat :=
  let n := c.toNat
  if n < 128 then [n]
  else if n < 2048 then [192 + n / 64, 128 + n % 64]
  else if n < 65536 then [224 + n / 4096, 128 + n / 64 % 64, 128 + n % 64]
  else [240 + n / 262144, 128 + n / 4096 % 64, 128 + n / 64 % 64, 128 + n % 64]

/-- The UTF-8 bytes of a string. -/
def stringUtf8Bytes (s : String) : List Nat := (s.toList.map utf8Bytes).flatten

/-- The base64 alphabet, indexed 0..63. -/
def base64Char (n : Nat) : Char :=
  "ABCDEFGHIJKLMNOPQRSTUVWXYZabcdefghijklmnopqrstuvwxyz0123456789+/".toList.getD n 'A'

/-- Standard base64 of a byte list with `=` padding, as produced by
`Buffer.toString(base64)` in Node. -/
def base64EncodeList : List Nat → String
  | b1 :: b2 :: b3 :: rest =>
      let n := b1 * 65536 + b2 * 256 + b3
      String.mk [base64Char (n / 262144), base64Char (n / 4096 % 64),
        base64Char (n / 64 % 64), base64Char (n % 64)] ++ base64EncodeList rest
  | [b1, b2] =>
      let n := (b1 * 256 + b2) * 4
      String.mk [base64Char (n / 4096), base64Char (n / 64 % 64), base64Char (n % 64), '=']
  | [b1] =>
      let n := b1 * 16
      String.mk [base64Char (n / 64), base64Char (n % 64), '=', '=']
  | [] => ""

/-- Base64 of the UTF-8 bytes of a string. -/
def base64Encode (s : String) : String := base64EncodeList (stringUtf8Bytes s)

/-- The raw configuration record passed to the constructor. Absent fields
are `undefined`. -/
structure RawConfig where
  host : JSValue
  username : JSValue
  password : JSValue
  port : JSValue
  secure : JSValue
  rejectUnauthorized : JSValue

/-- The immutable configuration the constructor stores in `this.config`. -/
structure ClientConfig where
  host : JSValue
  port : JSValue
  secure : Bool
  username : JSValue
  password : JSValue
  rejectUnauthorized : JSValue

/-- A constructed client: the stored configuration plus the Basic-Auth
header value computed once from username and password. -/
structure Client where
  config : ClientConfig
  authHeader : String

namespace PiKVMClient

/-- The constructor of `PiKVMClient`: throws (modelled as `Except.error`)
when host, username or password is falsy, otherwise stores the defaulted
configuration and the precomputed auth header. Mirrors
`config.port || (config.secure !== false ? 443 : 80)`,
`config.secure !== false` and `config.rejectUnauthorized || false`. -/
def create (config : RawConfig) : Except String Client :=
  if !truthy config.host || !truthy config.username || !truthy config.password then
    .error "host, username, and password are required"
  else
    let cfg : ClientConfig := {
      host := config.host
      port := jsOr config.port (if config.secure != JSValue.bool false then .num 443 else .num 80)
      secure := config.secure != JSValue.bool false
      username := config.username
      password := config.password
      rejectUnauthorized := jsOr config.rejectUnauthorized (.bool false) }
    .ok { config := cfg
          authHeader := "Basic " ++
            base64Encode (jsToString cfg.username ++ ":" ++ jsToString cfg.password) }

end PiKVMClient

/-- The argument triple a typed wrapper passes to the generic `request`
operation: HTTP method, path (query string included), optional JSON body.
A `none` body corresponds to the omitted `body` argument, which the request
operation never writes to the wire. -/
structure RequestDescriptor where
  method : String
  path : String
  body : Option Json

/-- The options object the request operation hands to the Node http(s)
client, together with the body it writes. -/
structure RequestOptions where
  hostname : JSValue
  port : JSValue
  path : String
  method : String
  authorization : String
  contentType : String
  rejectUnauthorized : JSValue

/-- The full wire-level request a client issues for a descriptor: the
connection options (including both headers) and the JSON body, which the
request operation serializes and writes when present. -/
structure WireRequest where
  options : RequestOptions
  body : Option Json

/-- The single request a client issues for a given descriptor, as built by
the `request` method from `this.config` and `this.authHeader`. -/
def Client.issue (c : Client) (d : RequestDescriptor) : WireRequest :=
  { options := {
      hostname := c.config.host
      port := c.config.port
      path := d.path
      method := d.method
      authorization := c.authHeader
      contentType := "application/json"
      rejectUnauthorized := c.config.rejectUnauthorized }
    body := d.body }

/-- ATX button action string constants exported by the library. -/
def ATXButton.POWER : String := "power"

def ATXButton.POWER_LONG : String := "power_long"

def ATXButton.RESET : String := "reset"

/-- ECMAScript `encodeURIComponent` leaves exactly the characters
A-Z a-z 0-9 - _ . ! ~ * apostrophe ( ) unescaped. -/
def isUnescapedInURIComponent (c : Char) : Bool :=
  c.isAlphanum || c == '-' || c == '_' || c == '.' || c == '!' || c == '~' ||
    c == '*' || c == '\'' || c == '(' || c == ')'

/-- Uppercase hexadecimal digit for a value below 16. -/
def toHexDigit (n : Nat) : Char :=
  if n < 10 then Char.ofNat (48 + n) else Char.ofNat (55 + n)

/-- Percent-encoding of one byte value, as `%XY` with uppercase hex. -/
def percentEncodeByte (b : Nat) : String :=
  String.mk ['%', toHexDigit (b / 16), toHexDigit (b % 16)]

/-- Model of the ECMAScript builtin `encodeURIComponent`: every character
outside the unescaped set is replaced by the percent-encoding of its UTF-8
bytes. -/
def encodeURIComponent (s : String) : String :=
  String.join (s.toList.map fun c =>
    if isUnescapedInURIComponent c then String.singleton c
    else String.join ((utf8Bytes c).map percentEncodeByte))

namespace PiKVMClient

/-- The generic request operation, viewed as the descriptor it is invoked
with; each typed wrapper below calls it exactly once. -/
def request (method path : String) (body : Option Json) : RequestDescriptor :=
  { method := method, path := path, body := body }

/-- GET /api/info. -/
def getInfo : RequestDescriptor := request "GET" "/api/info" none

/-- GET /api/atx. -/
def getATXInfo : RequestDescriptor := request "GET" "/api/atx" none

/-- POST /api/atx/click with the button and the wait flag encoded in the
query string; `wait` defaults to true and is sent as 1 or 0. -/
def clickATXButton (button : String) (wait : Bool := true) : RequestDescriptor :=
  request "POST"
    ("/api/atx/click?button=" ++ button ++ "&wait=" ++ (if wait then "1" else "0"))
    (some (.obj []))

/-- Power on: a short press of the power button. -/
def powerOn : RequestDescriptor := clickATXButton ATXButton.POWER

/-- Power off: also a short press of the power button. -/
def powerOff : RequestDescriptor := clickATXButton ATXButton.POWER

/-- Force power off: a long press of the power button. -/
def forcePowerOff : RequestDescriptor := clickATXButton ATXButton.POWER_LONG

/-- Reset button press. -/
def reset : RequestDescriptor := clickATXButton ATXButton.RESET

/-- GET /api/msd. -/
def getMSDInfo : RequestDescriptor := request "GET" "/api/msd" none

/-- POST /api/msd/set_params with body containing the image name (or null)
and the cdrom flag, which defaults to false. -/
def setMSDImage (image : Option String) (cdrom : Bool := false) : RequestDescriptor :=
  request "POST" "/api/msd/set_params"
    (some (.obj [("image", match image with | some s => .str s | none => .null),
                 ("cdrom", .bool cdrom)]))

/-- POST /api/msd/set_connected with connected true. -/
def connectMSD : RequestDescriptor :=
  request "POST" "/api/msd/set_connected" (some (.obj [("connected", .bool true)]))

/-- POST /api/msd/set_connected with connected false. -/
def disconnectMSD : RequestDescriptor :=
  request "POST" "/api/msd/set_connected" (some (.obj [("connected", .bool false)]))

/-- The TypeScript variant of the library declares an MSD upload method
that throws unconditionally before issuing any request. -/
def writeMSDImage (image : String) (data : List UInt8) : Except String RequestDescriptor :=
  .error "MSD image upload not implemented - use HTTP multipart/form-data directly"

/-- POST /api/msd/remove with the image name URL-encoded into the query
string via encodeURIComponent. -/
def removeMSDImage (image : String) : RequestDescriptor :=
  request "POST" ("/api/msd/remove?image=" ++ encodeURIComponent image) (some (.obj []))

/-- POST /api/hid/events/send_key with the key list in the body. -/
def sendKeys (keys : List String) : RequestDescriptor :=
  request "POST" "/api/hid/events/send_key" (some (.obj [("keys", .arr (keys.map .str))]))

/-- POST /api/hid/events/send_mouse_move with the deltas in the body. -/
def sendMouseMove (x y : Int) : RequestDescriptor :=
  request "POST" "/api/hid/events/send_mouse_move" (some (.obj [("x", .num x), ("y", .num y)]))

/-- POST /api/hid/events/send_mouse_button with button name and state. -/
def sendMouseButton (button : String) (state : Bool) : RequestDescriptor :=
  request "POST" "/api/hid/events/send_mouse_button"
    (some (.obj [("button", .str button), ("state", .bool state)]))

/-- POST /api/hid/events/send_mouse_wheel with the wheel delta. -/
def sendMouseWheel (delta : Int) : RequestDescriptor :=
  request "POST" "/api/hid/events/send_mouse_wheel" (some (.obj [("delta", .num delta)]))

/-- GET /api/gpio. -/
def getGPIO : RequestDescriptor := request "GET" "/api/gpio" none

/-- POST /api/gpio/switch with channel and state in the body. -/
def setGPIO (channel : String) (state : Bool) : RequestDescriptor :=
  request "POST" "/api/gpio/switch" (some (.obj [("channel", .str channel), ("state", .bool state)]))

/-- POST /api/gpio/pulse with channel and delay in the body; delay
defaults to 0. -/
def pulseGPIO (channel : String) (delay : Int := 0) : RequestDescriptor :=
  request "POST" "/api/gpio/pulse" (some (.obj [("channel", .str channel), ("delay", .num delay)]))

/-- The success value of a request: a parsed JSON value or, when parsing
fails on a nonempty body, the raw body text. -/
inductive ResponseValue where
  | json (value : Json)
  | raw (text : String)

/-- The response handler of the request operation, on the fully received
body text: inside [200,300) it resolves with the parsed body (empty body
giving an empty object, unparseable body giving the raw text), otherwise
it rejects with an error message carrying the status code and raw body.
The platform JSON parser, `JSON.parse`, is abstracted as the `jsonParse`
argument: `some` models a successful parse and `none` a thrown
SyntaxError. -/
def handleResponse (jsonParse : String → Option Json) (statusCode : Nat) (data : String) :
    Except String ResponseValue :=
  if 200 ≤ statusCode ∧ statusCode < 300 then
    if data = "" then .ok (.json (.obj []))
    else
      match jsonParse data with
      | some parsed => .ok (.json parsed)
      | none => .ok (.raw data)
  else
    .error ("HTTP " ++ toString statusCode ++ ": " ++ data)

end PiKVMClient

/-! The endpoint table of the specification, section 4, stated from the
words of the spec. These definitions exist to be compared against the
wrappers above, which are translated from the source. -/

/-- Spec table: System, get info, GET /api/info, no body. -/
def specGetInfo : RequestDescriptor := { method := "GET", path := "/api/info", body := none }

/-- Spec table: Power, get ATX status, GET /api/atx, no body. -/
def specGetATXStatus : RequestDescriptor := { method := "GET", path := "/api/atx", body := none }

/-- Spec table: Power, click button, POST /api/atx/click?button=b&wait=w
with w the wait flag encoded as 1 or 0, body the empty object. -/
def specClickButton (b : String) (wait : Bool) : RequestDescriptor :=
  { method := "POST"
    path := "/api/atx/click?button=" ++ b ++ "&wait=" ++ (if wait then "1" else "0")
    body := some (.obj []) }

/-- Spec table: power on is an alias for click with button power, and the
spec example fixes wait=1. -/
def specPowerOn : RequestDescriptor := specClickButton "power" true

/-- Spec table: power off is an alias for click with button power. -/
def specPowerOff : RequestDescriptor := specClickButton "power" true

/-- Spec table: force power off is an alias for click with button
power_long. -/
def specForcePowerOff : RequestDescriptor := specClickButton "power_long" true

/-- Spec table: reset is an alias for click with button reset. -/
def specReset : RequestDescriptor := specClickButton "reset" true

/-- Spec table: Storage, get MSD info, GET /api/msd, no body. -/
def specGetMSDInfo : RequestDescriptor := { method := "GET", path := "/api/msd", body := none }

/-- Spec table: Storage, set image, POST /api/msd/set_params, body
containing image and cdrom. -/
def specSetImage (image : Option String) (cdrom : Bool) : RequestDescriptor :=
  { method := "POST"
    path := "/api/msd/set_params"
    body := some (.obj [("image", match image with | some s => .str s | none => .null),
                        ("cdrom", .bool cdrom)]) }

/-- Spec table: Storage, connect or disconnect, POST /api/msd/set_connected,
body containing the connected flag. -/
def specSetConnected (connected : Bool) : RequestDescriptor :=
  { method := "POST"
    path := "/api/msd/set_connected"
    body := some (.obj [("connected", .bool connected)]) }

/-- Spec table: Storage, remove image, POST /api/msd/remove with the
URL-encoded name in the query, body the empty object. -/
def specRemoveImage (image : String) : RequestDescriptor :=
  { method := "POST"
    path := "/api/msd/remove?image=" ++ encodeURIComponent image
    body := some (.obj []) }

/-- Spec table: Input, send keys, POST /api/hid/events/send_key, body
containing the key list. -/
def specSendKeys (keys : List String) : RequestDescriptor :=
  { method := "POST"
    path := "/api/hid/events/send_key"
    body := some (.obj [("keys", .arr (keys.map .str))]) }

/-- Spec table: Input, mouse move, POST /api/hid/events/send_mouse_move,
body containing x and y. -/
def specMouseMove (x y : Int) : RequestDescriptor :=
  { method := "POST"
    path := "/api/hid/events/send_mouse_move"
    body := some (.obj [("x", .num x), ("y", .num y)]) }

/-- Spec table: Input, mouse button, POST /api/hid/events/send_mouse_button,
body containing button and state. -/
def specMouseButton (button : String) (state : Bool) : RequestDescriptor :=
  { method := "POST"
    path := "/api/hid/events/send_mouse_button"
    body := some (.obj [("button", .str button), ("state", .bool state)]) }

/-- Spec table: Input, mouse wheel, POST /api/hid/events/send_mouse_wheel,
body containing the delta. -/
def specMouseWheel (delta : Int) : RequestDescriptor :=
  { method := "POST"
    path := "/api/hid/events/send_mouse_wheel"
    body := some (.obj [("delta", .num delta)]) }

/-- Spec table: GPIO, get state, GET /api/gpio, no body. -/
def specGPIOGetState : RequestDescriptor := { method := "GET", path := "/api/gpio", body := none }

/-- Spec table: GPIO, set channel, POST /api/gpio/switch, body containing
channel and state. -/
def specGPIOSetChannel (channel : String) (state : Bool) : RequestDescriptor :=
  { method := "POST"
    path := "/api/gpio/switch"
    body := some (.obj [("channel", .str channel), ("state", .bool state)]) }

/-- Spec table: GPIO, pulse channel, POST /api/gpio/pulse, body containing
channel and delay, the latter defaulting to 0. -/
def specGPIOPulseChannel (channel : String) (delay : Int) : RequestDescriptor :=
  { method := "POST"
    path := "/api/gpio/pulse"
    body := some (.obj [("channel", .str channel), ("delay", .num delay)]) }

/-- C1: every typed endpoint wrapper, at every argument value, passes to
the generic request operation exactly the descriptor of the corresponding
row of the specification table: same method, path, query string and JSON
body; in particular powerOn is POST /api/atx/click?button=power&wait=1
with body the empty object, and pulseGPIO at channel c1 with delay omitted
is POST /api/gpio/pulse with body channel c1 and delay 0. -/
theorem endpoint_wrappers_match_spec_table :
    PiKVMClient.getInfo = specGetInfo ∧
    PiKVMClient.getATXInfo = specGetATXStatus ∧
    (∀ b w, PiKVMClient.clickATXButton b w = specClickButton b w) ∧
    PiKVMClient.powerOn = specPowerOn ∧
    PiKVMClient.powerOff = specPowerOff ∧
    PiKVMClient.forcePowerOff = specForcePowerOff ∧
    PiKVMClient.reset = specReset ∧
    PiKVMClient.getMSDInfo = specGetMSDInfo ∧
    (∀ img cd, PiKVMClient.setMSDImage img cd = specSetImage img cd) ∧
    PiKVMClient.connectMSD = specSetConnected true ∧
    PiKVMClient.disconnectMSD = specSetConnected false ∧
    (∀ img, PiKVMClient.removeMSDImage img = specRemoveImage img) ∧
    (∀ keys, PiKVMClient.sendKeys keys = specSendKeys keys) ∧
    (∀ x y, PiKVMClient.sendMouseMove x y = specMouseMove x y) ∧
    (∀ b s, PiKVMClient.sendMouseButton b s = specMouseButton b s) ∧
    (∀ d, PiKVMClient.sendMouseWheel d = specMouseWheel d) ∧
    PiKVMClient.getGPIO = specGPIOGetState ∧
    (∀ ch st, PiKVMClient.setGPIO ch st = specGPIOSetChannel ch st) ∧
    (∀ ch dl, PiKVMClient.pulseGPIO ch dl = specGPIOPulseChannel ch dl) ∧
    PiKVMClient.powerOn =
      PiKVMClient.request "POST" "/api/atx/click?button=power&wait=1" (some (.obj [])) ∧
    PiKVMClient.pulseGPIO "c1" =
      PiKVMClient.request "POST" "/api/gpio/pulse"
        (some (.obj [("channel", .str "c1"), ("delay", .num 0)])) :=
  ⟨rfl, rfl, fun _ _ => rfl, rfl, rfl, rfl, rfl, rfl, fun _ _ => rfl, rfl, rfl,
   fun _ => rfl, fun _ => rfl, fun _ _ => rfl, fun _ _ => rfl, fun _ => rfl, rfl,
   fun _ _ => rfl, fun _ _ => rfl, rfl, rfl⟩

/-- C2: for every response with a status code in [200,300), the request
operation always resolves successfully: with the empty object when the
body is empty, with the parsed JSON value when the nonempty body parses,
and with the raw body text unmodified when parsing fails; it never
rejects. -/
theorem success_response_decoding (jsonParse : String → Option Json)
    (statusCode : Nat) (data : String)
    (h : 200 ≤ statusCode ∧ statusCode < 300) :
    (data = "" →
      PiKVMClient.handleResponse jsonParse statusCode data = .ok (.json (.obj []))) ∧
    (∀ j, data ≠ "" → jsonParse data = some j →
      PiKVMClient.handleResponse jsonParse statusCode data = .ok (.json j)) ∧
    (data ≠ "" → jsonParse data = none →
      PiKVMClient.handleResponse jsonParse statusCode data = .ok (.raw data)) ∧
    (∀ e, PiKVMClient.handleResponse jsonParse statusCode data ≠ .error e) := by
  unfold PiKVMClient.handleResponse
  rw [if_pos h]
  by_cases hd : data = ""
  · simp [hd]
  · rw [if_neg hd]
    cases hp : jsonParse data with
    | some j => simp [hd]
    | none => simp [hd]

/-- Witness for C2, at the example of the spec: status 200 with the
non-JSON body OK resolves successfully with the raw text OK. -/
theorem success_response_decoding_witness :
    PiKVMClient.handleResponse (fun _ => none) 200 "OK" =
      .ok (.raw "OK") :=
  (success_response_decoding (fun _ => none) 200 "OK" (by decide)).2.2.1 (by decide) rfl

/-- C3: for every response with a status code outside [200,300), the
request operation rejects, and the error message is exactly the text HTTP,
the status code, a colon, and the raw body; in particular it contains the
status code prefixed by HTTP and the body text, and no such status is
treated as success. -/
theorem error_response_decoding (jsonParse : String → Option Json)
    (statusCode : Nat) (data : String)
    (h : ¬ (200 ≤ statusCode ∧ statusCode < 300)) :
    PiKVMClient.handleResponse jsonParse statusCode data =
      .error ("HTTP " ++ toString statusCode ++ ": " ++ data) := by
  unfold PiKVMClient.handleResponse
  rw [if_neg h]

/-- Witness for C3, at the example of the spec: status 401 with body
Unauthorized rejects with the message HTTP 401: Unauthorized. -/
theorem error_response_decoding_witness :
    PiKVMClient.handleResponse (fun _ => none) 401 "Unauthorized" =
      .error "HTTP 401: Unauthorized" :=
  error_response_decoding (fun _ => none) 401 "Unauthorized" (by decide)

/-- Construction fails exactly when one of host, username, password is
falsy; shared inversion of the constructor guard. -/
theorem create_isOk_false_iff (cfg : RawConfig) :
    (PiKVMClient.create cfg).isOk = false ↔
      (truthy cfg.host = false ∨ truthy cfg.username = false ∨
        truthy cfg.password = false) := by
  unfold PiKVMClient.create
  cases hh : truthy cfg.host <;> cases hu : truthy cfg.username <;>
    cases hpw : truthy cfg.password <;>
    simp [hh, hu, hpw, Except.isOk, Except.toBool]

/-- C4: for a configuration whose host, username and password fields are
each either absent (undefined) or a string, construction fails exactly when
one of the three is absent or the empty string, and succeeds when all
three are present and nonempty; the failure is a synchronous throw in the
constructor, before any network activity. -/
theorem construction_requires_credentials (cfg : RawConfig)
    (hh : cfg.host = .undefined ∨ ∃ s, cfg.host = .str s)
    (hu : cfg.username = .undefined ∨ ∃ s, cfg.username = .str s)
    (hp : cfg.password = .undefined ∨ ∃ s, cfg.password = .str s) :
    (PiKVMClient.create cfg).isOk = false ↔
      (cfg.host = .undefined ∨ cfg.host = .str "" ∨
       cfg.username = .undefined ∨ cfg.username = .str "" ∨
       cfg.password = .undefined ∨ cfg.password = .str "") := by
  rw [create_isOk_false_iff]
  rcases hh with hh | ⟨s1, hh⟩ <;> rcases hu with hu | ⟨s2, hu⟩ <;>
    rcases hp with hp | ⟨s3, hp⟩ <;> simp [hh, hu, hp, truthy]

/-- Witness for C4: with host, username and password all present and the
host the empty string, construction fails; and with all three nonempty
strings, construction succeeds. -/
theorem construction_requires_credentials_witness :
    (PiKVMClient.create
      { host := .str "", username := .str "admin", password := .str "admin",
        port := .undefined, secure := .undefined,
        rejectUnauthorized := .undefined }).isOk = false ∧
    (PiKVMClient.create
      { host := .str "pikvm.local", username := .str "admin", password := .str "admin",
        port := .undefined, secure := .undefined,
        rejectUnauthorized := .undefined }).isOk = true := by
  constructor
  · exact (construction_requires_credentials _ (Or.inr ⟨"", rfl⟩) (Or.inr ⟨"admin", rfl⟩)
      (Or.inr ⟨"admin", rfl⟩)).mpr (Or.inr (Or.inl rfl))
  · have h := (construction_requires_credentials
      { host := .str "pikvm.local", username := .str "admin", password := .str "admin",
        port := .undefined, secure := .undefined, rejectUnauthorized := .undefined }
      (Or.inr ⟨"pikvm.local", rfl⟩) (Or.inr ⟨"admin", rfl⟩) (Or.inr ⟨"admin", rfl⟩))
    have hne : ¬ ((JSValue.str "pikvm.local" = .undefined ∨ JSValue.str "pikvm.local" = .str "" ∨
        JSValue.str "admin" = .undefined ∨ JSValue.str "admin" = .str "" ∨
        JSValue.str "admin" = .undefined ∨ JSValue.str "admin" = .str "")) := by decide
    have := mt h.mp hne
    simpa using this

/-- Inversion of a successful construction: the stored port and secure
fields are the defaulted ones computed by the constructor. -/
theorem create_ok_config (cfg : RawConfig) (c : Client)
    (h : PiKVMClient.create cfg = .ok c) :
    c.config.port = jsOr cfg.port
      (if cfg.secure != JSValue.bool false then .num 443 else .num 80) ∧
    c.config.secure = (cfg.secure != JSValue.bool false) := by
  unfold PiKVMClient.create at h
  split at h
  · simp at h
  · cases h
    exact ⟨rfl, rfl⟩

/-- C5 counterexample: supplying the explicit port 0 does not override the
derived default; the constructor stores 443, because the defaulting uses
JavaScript logical-or and 0 is falsy. -/
theorem explicit_port_zero_ignored :
    (PiKVMClient.create
      { host := .str "pikvm.local", username := .str "admin", password := .str "admin",
        port := .num 0, secure := .undefined,
        rejectUnauthorized := .undefined }).toOption.map (fun c => c.config.port) =
      some (.num 443) ∧ JSValue.num 443 ≠ JSValue.num 0 :=
  ⟨rfl, by decide⟩

/-- C5 amended: with port unset the effective port is 443 when secure is
not the literal false and 80 when it is; an explicitly supplied nonzero
port overrides the derived default, while the explicit port 0 falls back
to the derived default. -/
theorem effective_port_defaulting (cfg : RawConfig) (c : Client)
    (h : PiKVMClient.create cfg = .ok c) :
    (cfg.port = .undefined → cfg.secure ≠ .bool false → c.config.port = .num 443) ∧
    (cfg.port = .undefined → cfg.secure = .bool false → c.config.port = .num 80) ∧
    (∀ n : Int, n ≠ 0 → cfg.port = .num n → c.config.port = .num n) ∧
    (cfg.port = .num 0 → cfg.secure ≠ .bool false → c.config.port = .num 443) ∧
    (cfg.port = .num 0 → cfg.secure = .bool false → c.config.port = .num 80) := by
  obtain ⟨hport, -⟩ := create_ok_config cfg c h
  refine ⟨fun hp hs => ?_, fun hp hs => ?_, fun n hn hp => ?_, fun hp hs => ?_,
    fun hp hs => ?_⟩
  · rw [hport, hp]
    simp [jsOr, truthy, bne_iff_ne, hs]
  · rw [hport, hp, hs]
    simp [jsOr, truthy]
  · rw [hport, hp]
    simp [jsOr, truthy, bne_iff_ne, hn]
  · rw [hport, hp]
    simp [jsOr, truthy, bne_iff_ne, hs]
  · rw [hport, hp, hs]
    simp [jsOr, truthy]

/-- Configuration with an explicit custom port, as in the test suite. -/
def cfgCustomPort : RawConfig :=
  { host := .str "pikvm.local", username := .str "admin", password := .str "admin",
    port := .num 8443, secure := .undefined, rejectUnauthorized := .undefined }

/-- The client the constructor produces for `cfgCustomPort`. -/
def clientCustomPort : Client :=
  { config :=
      { host := .str "pikvm.local", port := .num 8443, secure := true,
        username := .str "admin", password := .str "admin",
        rejectUnauthorized := .bool false }
    authHeader := "Basic " ++ base64Encode "admin:admin" }

/-- Witness for the amended C5: the explicit nonzero port 8443 is kept. -/
theorem effective_port_defaulting_witness :
    (PiKVMClient.create cfgCustomPort).toOption.map (fun c => c.config.port) =
      some (.num 8443) := by
  have h : PiKVMClient.create cfgCustomPort = .ok clientCustomPort := rfl
  have hp := (effective_port_defaulting cfgCustomPort clientCustomPort h).2.2.1
    8443 (by decide) rfl
  rw [h]
  show some clientCustomPort.config.port = some (JSValue.num 8443)
  exact congrArg some hp

/-- C6: powerOn and powerOff are extensionally equal: they pass the same
descriptor to the request operation, and for every constructed client they
issue the identical wire request, namely POST
/api/atx/click?button=power&wait=1 with body the empty object. -/
theorem powerOn_powerOff_identical :
    PiKVMClient.powerOn = PiKVMClient.powerOff ∧
    (∀ c : Client, c.issue PiKVMClient.powerOn = c.issue PiKVMClient.powerOff) ∧
    PiKVMClient.powerOn =
      { method := "POST", path := "/api/atx/click?button=power&wait=1",
        body := some (.obj []) } :=
  ⟨rfl, fun _ => rfl, rfl⟩

/-- C7: clickATXButton encodes the wait flag literally as 1 when true and
0 when false in the query string, and omitting the wait argument defaults
it to true. -/
theorem clickATXButton_wait_encoding (b : String) :
    (PiKVMClient.clickATXButton b true).path =
      "/api/atx/click?button=" ++ b ++ "&wait=1" ∧
    (PiKVMClient.clickATXButton b false).path =
      "/api/atx/click?button=" ++ b ++ "&wait=0" ∧
    PiKVMClient.clickATXButton b = PiKVMClient.clickATXButton b true := by
  refine ⟨?_, ?_, rfl⟩
  · show ("/api/atx/click?button=" ++ b ++ "&wait=") ++ "1" =
      "/api/atx/click?button=" ++ b ++ "&wait=1"
    rw [String.append_assoc]
    rfl
  · show ("/api/atx/click?button=" ++ b ++ "&wait=") ++ "0" =
      "/api/atx/click?button=" ++ b ++ "&wait=0"
    rw [String.append_assoc]
    rfl

/-- C8: removeMSDImage places the URL-encoded image name into the query
string of POST /api/msd/remove with body the empty object; at the name
a b.iso the space is percent-encoded as %20. -/
theorem removeMSDImage_urlencodes (image : String) :
    (PiKVMClient.removeMSDImage image).method = "POST" ∧
    (PiKVMClient.removeMSDImage image).path =
      "/api/msd/remove?image=" ++ encodeURIComponent image ∧
    (PiKVMClient.removeMSDImage image).body = some (.obj []) ∧
    (PiKVMClient.removeMSDImage "a b.iso").path = "/api/msd/remove?image=a%20b.iso" :=
  ⟨rfl, rfl, rfl, by decide⟩

/-- C9: the mass-storage upload method fails for every image name and every
data payload with the explicit not-implemented error, issuing no request;
the failure depends on no input. -/
theorem writeMSDImage_not_implemented (image : String) (data : List UInt8) :
    PiKVMClient.writeMSDImage image data =
      .error "MSD image upload not implemented - use HTTP multipart/form-data directly" :=
  rfl

/-- C10: the secure flag is treated as true for every configuration value
that is not the literal boolean false, yielding an HTTPS client with
default port 443 when the port is unset; only the exact boolean false
selects plaintext HTTP with default port 80. -/
theorem secure_flag_strict_false_check (cfg : RawConfig) (c : Client)
    (h : PiKVMClient.create cfg = .ok c) :
    (cfg.secure ≠ .bool false → c.config.secure = true) ∧
    (cfg.secure = .bool false → c.config.secure = false) ∧
    (cfg.port = .undefined → cfg.secure ≠ .bool false → c.config.port = .num 443) ∧
    (cfg.port = .undefined → cfg.secure = .bool false → c.config.port = .num 80) := by
  obtain ⟨hport, hsec⟩ := create_ok_config cfg c h
  refine ⟨fun hs => ?_, fun hs => ?_, fun hp hs => ?_, fun hp hs => ?_⟩
  · rw [hsec]
    simp [bne_iff_ne, hs]
  · rw [hsec, hs]
    simp
  · rw [hport, hp]
    simp [jsOr, truthy, bne_iff_ne, hs]
  · rw [hport, hp, hs]
    simp [jsOr, truthy]

/-- Configuration in which secure is the string false rather than the
boolean false. -/
def cfgSecureStrFalse : RawConfig :=
  { host := .str "pikvm.local", username := .str "admin", password := .str "admin",
    port := .undefined, secure := .str "false", rejectUnauthorized := .undefined }

/-- The client the constructor produces for `cfgSecureStrFalse`. -/
def clientSecureStrFalse : Client :=
  { config :=
      { host := .str "pikvm.local", port := .num 443, secure := true,
        username := .str "admin", password := .str "admin",
        rejectUnauthorized := .bool false }
    authHeader := "Basic " ++ base64Encode "admin:admin" }

/-- Witness for C10: the string value false still yields an HTTPS client
on default port 443. -/
theorem secure_flag_strict_false_check_witness :
    clientSecureStrFalse.config.secure = true ∧
    clientSecureStrFalse.config.port = .num 443 := by
  have h : PiKVMClient.create cfgSecureStrFalse = .ok clientSecureStrFalse := rfl
  have hthm := secure_flag_strict_false_check cfgSecureStrFalse clientSecureStrFalse h
  exact ⟨hthm.1 (by decide), hthm.2.2.1 rfl (by decide)⟩

end PiKVM
